import Mathlib

/-!
Verification development for the crime-attempt resolution engine of the
mafia-game backend.

The repository bundles several historical revisions of the same Express
server.  Each revision of the POST /commit-crime handler is embedded below
as a pure Lean function over an explicit database state:

* commitCrimeBasic    — server.js lines 538-575 (global last_crime cooldown);
* commitCrimeAdvanced — server.js lines 755-839 (tiered roll, critical
  success, user_crime_cooldowns table with available_at, three sequential
  UPDATE queries);
* commitCrimeXpRank   — server.js lines 1149-1216 (per-crime last_crimes
  JSONB cooldown, XP and rank, no jail check);
* commitCrimePartA    — src/unnamed/part_001 lines 120-186 (jail check
  before crime lookup, last_crimes JSONB cooldown, points);
* commitCrimePartB    — src/unnamed/part_001 lines 325-394 (jail check
  before crime lookup, user_crime_cooldowns table with last_attempt,
  stats UPDATE and cooldown upsert as two sequential queries).

Timestamps are in milliseconds (Int); Date.now() and NOW() are both the
explicit parameter "now".  Math.random() draws are explicit rationals in
[0,1).  Each SQL query is one atomic state transformer; the handlers that
issue several mutating queries also return the list of intermediate
committed states, in order, so that statements about what a concurrent
reader could observe between queries can be made.
-/

set_option maxHeartbeats 1600000

/-- Row of the users table (union of the columns the embedded handlers touch).
last_crimes is the per-crime JSONB map from crime id to last-attempt time. -/
structure User where
  money : Int
  points : Int
  xp : Int
  rank : String
  total_crimes : Int
  successful_crimes : Int
  unsuccessful_crimes : Int
  jail_until : Option Int
  last_crime : Option Int
  last_crimes : List (Nat × Int)
deriving DecidableEq

/-- Row of the crimes table. -/
structure Crime where
  min_reward : Int
  max_reward : Int
  success_rate : ℚ
  cooldown_seconds : Int
  xp_reward : Int
deriving DecidableEq

/-- The database: users and crimes keyed by id, and the
user_crime_cooldowns table keyed by (user_id, crime_id); its Int payload is
available_at in the advanced revision and last_attempt in part_001. -/
structure DB where
  users : List (Nat × User)
  crimes : List (Nat × Crime)
  cooldowns : List ((Nat × Nat) × Int)
deriving DecidableEq

/-- SELECT by key from an association list (first matching row). -/
def assocFind {κ α : Type} [DecidableEq κ] (k : κ) : List (κ × α) → Option α
  | [] => none
  | (k', v) :: rest => if k' = k then some v else assocFind k rest

/-- UPDATE ... WHERE key = k: rewrite every row with the given key. -/
def assocUpdate {κ α : Type} [DecidableEq κ] (k : κ) (f : α → α) :
    List (κ × α) → List (κ × α)
  | [] => []
  | (k', v) :: rest =>
      if k' = k then (k', f v) :: assocUpdate k f rest
      else (k', v) :: assocUpdate k f rest

/-- Keyed upsert: UPDATE the row if the key is present, INSERT it otherwise. -/
def assocUpsert {κ α : Type} [DecidableEq κ] (k : κ) (v : α)
    (l : List (κ × α)) : List (κ × α) :=
  match assocFind k l with
  | some _ => assocUpdate k (fun _ => v) l
  | none => l ++ [(k, v)]

/-- Tagged result of one crime-attempt call. -/
inductive Outcome where
  | userNotFound
  | crimeNotFound
  | jailed (jail_until : Int)
  | coolingDown
  | onCooldown (wait : Int)
  | resolved (succeeded : Bool) (reward : Int) (jail_until : Option Int)
deriving DecidableEq

/-- Whether a resolved outcome carries the success flag. -/
def Outcome.isSuccess : Outcome → Bool
  | .resolved s _ _ => s
  | _ => false

/-- The jail gate shared by the handlers:
user.jail_until && new Date(user.jail_until) > new Date().
Returns the stored expiry when the player is still jailed. -/
def jailGate (ju : Option Int) (now : Int) : Option Int :=
  match ju with
  | some j => if now < j then some j else none
  | none => none

/-- Math.ceil of a millisecond difference converted to whole seconds:
Math.ceil(diff / 1000). -/
def ceilSecs (diff : Int) : Int := ⌈(diff : ℚ) / 1000⌉

/-- The reward roll every revision uses on success:
Math.floor(Math.random() * (max_reward - min_reward + 1)) + min_reward. -/
def rollReward (minR maxR : Int) (r : ℚ) : Int :=
  ⌊r * ((maxR : ℚ) - (minR : ℚ) + 1)⌋ + minR

/-! ## Basic revision, server.js lines 538-575 -/

/-- Cooldown gate of the basic revision: a single global last_crime
timestamp; user.last_crime && last_crime + cooldown_seconds * 1000 > Date.now().
The rejection message carries no remaining time. -/
def basicCooldown (lastCrime : Option Int) (c : Crime) (now : Int) : Option Outcome :=
  match lastCrime with
  | some lc =>
      if now < lc + c.cooldown_seconds * 1000 then some Outcome.coolingDown else none
  | none => none

/-- Jail gate then global cooldown gate, as evaluated at lines 549-555. -/
def basicGate (u : User) (c : Crime) (now : Int) : Option Outcome :=
  match jailGate u.jail_until now with
  | some j => some (Outcome.jailed j)
  | none => basicCooldown u.last_crime c now

/-- Success UPDATE of the basic revision (lines 562-565): money, counters,
last_crime = NOW(). -/
def basicSuccessUpdate (reward now : Int) (u : User) : User :=
  { u with money := u.money + reward,
           total_crimes := u.total_crimes + 1,
           successful_crimes := u.successful_crimes + 1,
           last_crime := some now }

/-- Failure UPDATE of the basic revision (lines 567-570): counters,
jail_until = now + cooldown, last_crime = NOW(). -/
def basicFailUpdate (jailUntil now : Int) (u : User) : User :=
  { u with total_crimes := u.total_crimes + 1,
           unsuccessful_crimes := u.unsuccessful_crimes + 1,
           jail_until := some jailUntil,
           last_crime := some now }

/-- POST /commit-crime, server.js lines 538-575. -/
def commitCrimeBasic (db : DB) (userId crimeId : Nat) (now : Int)
    (roll rewardRoll : ℚ) : Outcome × DB :=
  match assocFind userId db.users with
  | none => (Outcome.userNotFound, db)
  | some user =>
    match assocFind crimeId db.crimes with
    | none => (Outcome.crimeNotFound, db)
    | some crime =>
      match basicGate user crime now with
      | some o => (o, db)
      | none =>
        if roll < crime.success_rate then
          let reward := rollReward crime.min_reward crime.max_reward rewardRoll
          (Outcome.resolved true reward none,
            { db with users := assocUpdate userId (basicSuccessUpdate reward now) db.users })
        else
          let jailUntil := now + crime.cooldown_seconds * 1000
          (Outcome.resolved false 0 (some jailUntil),
            { db with users := assocUpdate userId (basicFailUpdate jailUntil now) db.users })

/-! ## Advanced revision, server.js lines 755-839 -/

/-- Success UPDATE of the advanced revision (lines 809-811): money and
counters only; the cooldown lives in its own table. -/
def advSuccessUpdate (reward : Int) (u : User) : User :=
  { u with money := u.money + reward,
           total_crimes := u.total_crimes + 1,
           successful_crimes := u.successful_crimes + 1 }

/-- Failure UPDATE of the advanced revision (lines 813-815). -/
def advFailUpdate (u : User) : User :=
  { u with total_crimes := u.total_crimes + 1,
           unsuccessful_crimes := u.unsuccessful_crimes + 1 }

/-- The separate jail UPDATE at line 803. -/
def setJail (jailUntil : Int) (u : User) : User := { u with jail_until := some jailUntil }

/-- Roll resolution and the sequential mutating queries of the advanced
revision (lines 785-826).  rowExists records whether the earlier cooldown
SELECT returned a row, which decides UPDATE versus INSERT at lines 820-826.
Returns the outcome, the final state, and the list of committed states
after each mutating query in order. -/
def advResolve (db : DB) (userId crimeId : Nat) (crime : Crime)
    (now : Int) (roll rewardRoll : ℚ) (rowExists : Bool) : Outcome × DB × List DB :=
  let nextAvailable := now + crime.cooldown_seconds * 1000
  let upsertCd : DB → DB := fun d =>
    { d with cooldowns :=
        if rowExists then assocUpdate (userId, crimeId) (fun _ => nextAvailable) d.cooldowns
        else d.cooldowns ++ [((userId, crimeId), nextAvailable)] }
  if roll < crime.success_rate * (1 / 10) then
    let reward := rollReward crime.min_reward crime.max_reward rewardRoll * 2
    let db₁ := { db with users := assocUpdate userId (advSuccessUpdate reward) db.users }
    let db₂ := upsertCd db₁
    (Outcome.resolved true reward none, db₂, [db₁, db₂])
  else if roll < crime.success_rate then
    let reward := rollReward crime.min_reward crime.max_reward rewardRoll
    let db₁ := { db with users := assocUpdate userId (advSuccessUpdate reward) db.users }
    let db₂ := upsertCd db₁
    (Outcome.resolved true reward none, db₂, [db₁, db₂])
  else if roll < 9 / 10 then
    let db₁ := { db with users := assocUpdate userId advFailUpdate db.users }
    let db₂ := upsertCd db₁
    (Outcome.resolved false 0 none, db₂, [db₁, db₂])
  else
    let db₁ := { db with users := assocUpdate userId (setJail nextAvailable) db.users }
    let db₂ := { db₁ with users := assocUpdate userId advFailUpdate db₁.users }
    let db₃ := upsertCd db₂
    (Outcome.resolved false 0 (some nextAvailable), db₃, [db₁, db₂, db₃])

/-- POST /commit-crime, server.js lines 755-839 (advanced revision). -/
def commitCrimeAdvanced (db : DB) (userId crimeId : Nat) (now : Int)
    (roll rewardRoll : ℚ) : Outcome × DB × List DB :=
  match assocFind userId db.users with
  | none => (Outcome.userNotFound, db, [])
  | some user =>
    match assocFind crimeId db.crimes with
    | none => (Outcome.crimeNotFound, db, [])
    | some crime =>
      match jailGate user.jail_until now with
      | some j => (Outcome.jailed j, db, [])
      | none =>
        match assocFind (userId, crimeId) db.cooldowns with
        | some availableAt =>
          if now < availableAt then
            (Outcome.onCooldown (ceilSecs (availableAt - now)), db, [])
          else
            advResolve db userId crimeId crime now roll rewardRoll true
        | none => advResolve db userId crimeId crime now roll rewardRoll false

/-! ## Rank system, server.js lines 1115-1133 -/

/-- One entry of the RANKS table. -/
structure RankEntry where
  name : String
  xp : Int
deriving DecidableEq

/-- The RANKS configuration, server.js lines 1116-1125. -/
def RANKS : List RankEntry :=
  [⟨"Rookie", 0⟩, ⟨"Thug", 100⟩, ⟨"Hustler", 300⟩, ⟨"Gangster", 700⟩,
   ⟨"Capo", 1500⟩, ⟨"Underboss", 3000⟩, ⟨"Boss", 6000⟩, ⟨"Godfather", 12000⟩]

/-- The loop body of getRank: current starts as the first label and is
overwritten by every entry whose threshold the xp has reached. -/
def getRankAux (xp : Int) : String → List RankEntry → String
  | current, [] => current
  | current, r :: rest => getRankAux xp (if r.xp ≤ xp then r.name else current) rest

/-- getRank, server.js lines 1127-1133. -/
def getRank (xp : Int) : String :=
  getRankAux xp ((RANKS.headD ⟨"Rookie", 0⟩).name) RANKS

/-! ## The revision with XP and rank, server.js lines 1149-1216 -/

/-- Success UPDATE of the XP and rank revision (lines 1176-1183). -/
def xpRankSuccessUpdate (reward xpGain now : Int) (crimeId : Nat) (u : User) : User :=
  { u with money := u.money + reward,
           xp := u.xp + xpGain,
           total_crimes := u.total_crimes + 1,
           successful_crimes := u.successful_crimes + 1,
           last_crimes := assocUpsert crimeId now u.last_crimes }

/-- Failure UPDATE of the XP and rank revision (lines 1186-1193). -/
def xpRankFailUpdate (xpGain now : Int) (crimeId : Nat) (u : User) : User :=
  { u with xp := u.xp + xpGain,
           total_crimes := u.total_crimes + 1,
           unsuccessful_crimes := u.unsuccessful_crimes + 1,
           last_crimes := assocUpsert crimeId now u.last_crimes }

/-- The rank recomputation step (lines 1196-1204): re-select the user,
recompute getRank on the updated XP, and write the label if it changed. -/
def updateRankStep (db : DB) (userId : Nat) (o : Outcome) : Outcome × DB :=
  match assocFind userId db.users with
  | none => (o, db)
  | some u =>
    let newRank := getRank u.xp
    if newRank = u.rank then (o, db)
    else (o, { db with users := assocUpdate userId (fun v => { v with rank := newRank }) db.users })

/-- POST /commit-crime, server.js lines 1149-1216 (XP and rank revision).
There is no jail check in this revision; an absent last_crimes entry is
treated as timestamp 0 by the cooldown check (lines 1161-1163). -/
def commitCrimeXpRank (db : DB) (userId crimeId : Nat) (now : Int)
    (roll rewardRoll : ℚ) : Outcome × DB :=
  match assocFind userId db.users with
  | none => (Outcome.userNotFound, db)
  | some user =>
    match assocFind crimeId db.crimes with
    | none => (Outcome.crimeNotFound, db)
    | some crime =>
      let lastCrimeTime : Int :=
        match assocFind crimeId user.last_crimes with
        | some t => t
        | none => 0
      if now < lastCrimeTime + crime.cooldown_seconds * 1000 then
        (Outcome.onCooldown (ceilSecs (lastCrimeTime + crime.cooldown_seconds * 1000 - now)), db)
      else
        let xpGain := ⌊(crime.max_reward : ℚ) / 10⌋
        if roll < crime.success_rate then
          let reward := rollReward crime.min_reward crime.max_reward rewardRoll
          updateRankStep
            { db with users := assocUpdate userId (xpRankSuccessUpdate reward xpGain now crimeId) db.users }
            userId (Outcome.resolved true reward none)
        else
          updateRankStep
            { db with users := assocUpdate userId (xpRankFailUpdate ⌊(xpGain : ℚ) / 4⌋ now crimeId) db.users }
            userId (Outcome.resolved false 0 none)

/-! ## First part_001 revision, lines 120-186 -/

/-- Success UPDATE of the first part_001 revision (lines 158-165). -/
def partASuccessUpdate (reward pointsGained now : Int) (crimeId : Nat) (u : User) : User :=
  { u with money := u.money + reward,
           points := u.points + pointsGained,
           total_crimes := u.total_crimes + 1,
           successful_crimes := u.successful_crimes + 1,
           last_crimes := assocUpsert crimeId now u.last_crimes }

/-- Failure UPDATE of the first part_001 revision (lines 172-180):
one pity point, counters, jail, last_crimes entry. -/
def partAFailUpdate (jailUntil now : Int) (crimeId : Nat) (u : User) : User :=
  { u with points := u.points + 1,
           total_crimes := u.total_crimes + 1,
           unsuccessful_crimes := u.unsuccessful_crimes + 1,
           jail_until := some jailUntil,
           last_crimes := assocUpsert crimeId now u.last_crimes }

/-- Roll resolution of the first part_001 revision (lines 146-181). -/
def partAResolve (db : DB) (userId crimeId : Nat) (crime : Crime)
    (now : Int) (roll rewardRoll : ℚ) : Outcome × DB :=
  if roll < crime.success_rate then
    let reward := rollReward crime.min_reward crime.max_reward rewardRoll
    let pointsGained := ⌈(crime.max_reward : ℚ) / 50 * crime.success_rate * 10⌉
    (Outcome.resolved true reward none,
      { db with users := assocUpdate userId (partASuccessUpdate reward pointsGained now crimeId) db.users })
  else
    let jailUntil := now + crime.cooldown_seconds * 1000
    (Outcome.resolved false 0 (some jailUntil),
      { db with users := assocUpdate userId (partAFailUpdate jailUntil now crimeId) db.users })

/-- POST /commit-crime, src/unnamed/part_001 lines 120-186.  The jail gate
runs before the crime lookup (lines 129-136). -/
def commitCrimePartA (db : DB) (userId crimeId : Nat) (now : Int)
    (roll rewardRoll : ℚ) : Outcome × DB :=
  match assocFind userId db.users with
  | none => (Outcome.userNotFound, db)
  | some user =>
    match jailGate user.jail_until now with
    | some j => (Outcome.jailed j, db)
    | none =>
      match assocFind crimeId db.crimes with
      | none => (Outcome.crimeNotFound, db)
      | some crime =>
        match assocFind crimeId user.last_crimes with
        | some lastAttempt =>
          if now < lastAttempt + crime.cooldown_seconds * 1000 then
            (Outcome.onCooldown
              (ceilSecs (lastAttempt + crime.cooldown_seconds * 1000 - now)), db)
          else partAResolve db userId crimeId crime now roll rewardRoll
        | none => partAResolve db userId crimeId crime now roll rewardRoll

/-! ## Second part_001 revision, lines 325-394 -/

/-- Success UPDATE of the second part_001 revision (lines 361-365). -/
def partBSuccessUpdate (reward xpReward : Int) (u : User) : User :=
  { u with money := u.money + reward,
           xp := u.xp + xpReward,
           total_crimes := u.total_crimes + 1,
           successful_crimes := u.successful_crimes + 1 }

/-- Failure UPDATE of the second part_001 revision (lines 369-374). -/
def partBFailUpdate (jailUntil : Int) (u : User) : User :=
  { u with total_crimes := u.total_crimes + 1,
           unsuccessful_crimes := u.unsuccessful_crimes + 1,
           jail_until := some jailUntil }

/-- Roll resolution of the second part_001 revision (lines 355-382): the
stats UPDATE and the cooldown upsert (last_attempt = NOW()) run as two
separate queries; both committed states are returned. -/
def partBResolve (db : DB) (userId crimeId : Nat) (crime : Crime)
    (now : Int) (roll rewardRoll : ℚ) : Outcome × DB × List DB :=
  if roll < crime.success_rate then
    let reward := rollReward crime.min_reward crime.max_reward rewardRoll
    let db₁ := { db with users := assocUpdate userId (partBSuccessUpdate reward crime.xp_reward) db.users }
    let db₂ := { db₁ with cooldowns := assocUpsert (userId, crimeId) now db₁.cooldowns }
    (Outcome.resolved true reward none, db₂, [db₁, db₂])
  else
    let jailUntil := now + crime.cooldown_seconds * 1000
    let db₁ := { db with users := assocUpdate userId (partBFailUpdate jailUntil) db.users }
    let db₂ := { db₁ with cooldowns := assocUpsert (userId, crimeId) now db₁.cooldowns }
    (Outcome.resolved false 0 (some jailUntil), db₂, [db₁, db₂])

/-- POST /commit-crime, src/unnamed/part_001 lines 325-394.  The jail gate
runs before the crime lookup (lines 332-338). -/
def commitCrimePartB (db : DB) (userId crimeId : Nat) (now : Int)
    (roll rewardRoll : ℚ) : Outcome × DB × List DB :=
  match assocFind userId db.users with
  | none => (Outcome.userNotFound, db, [])
  | some user =>
    match jailGate user.jail_until now with
    | some j => (Outcome.jailed j, db, [])
    | none =>
      match assocFind crimeId db.crimes with
      | none => (Outcome.crimeNotFound, db, [])
      | some crime =>
        match assocFind (userId, crimeId) db.cooldowns with
        | some lastAttempt =>
          if now < lastAttempt + crime.cooldown_seconds * 1000 then
            (Outcome.onCooldown
              (ceilSecs (lastAttempt + crime.cooldown_seconds * 1000 - now)), db, [])
          else partBResolve db userId crimeId crime now roll rewardRoll
        | none => partBResolve db userId crimeId crime now roll rewardRoll

/-! ## Stale-read interleaving of two basic-revision calls

The basic handler runs its SELECTs, its gate checks, and its single UPDATE
as separate awaited queries with no transaction or lock, so between one
request's SELECT of the user row and its UPDATE, a whole second request
can run to completion.  basicStaleRace is exactly that schedule: request A
reads the user and crime rows, then request B executes completely, then A
evaluates its gates on the stale snapshot and applies its UPDATE (whose
increments are relative, as in the SQL) to the state B left behind. -/
def basicStaleRace (db : DB) (userId crimeId : Nat) (now : Int)
    (rollA rewardRollA rollB rewardRollB : ℚ) : Outcome × Outcome × DB :=
  match assocFind userId db.users with
  | none => (Outcome.userNotFound, Outcome.userNotFound, db)
  | some user =>
    match assocFind crimeId db.crimes with
    | none => (Outcome.crimeNotFound, Outcome.crimeNotFound, db)
    | some crime =>
      let rB := commitCrimeBasic db userId crimeId now rollB rewardRollB
      match basicGate user crime now with
      | some o => (o, rB.1, rB.2)
      | none =>
        if rollA < crime.success_rate then
          let reward := rollReward crime.min_reward crime.max_reward rewardRollA
          (Outcome.resolved true reward none, rB.1,
            { rB.2 with users := assocUpdate userId (basicSuccessUpdate reward now) rB.2.users })
        else
          let jailUntil := now + crime.cooldown_seconds * 1000
          (Outcome.resolved false 0 (some jailUntil), rB.1,
            { rB.2 with users := assocUpdate userId (basicFailUpdate jailUntil now) rB.2.users })

/-! ## Association-list lemmas -/

theorem assocFind_assocUpdate {κ α : Type} [DecidableEq κ] (k : κ) (f : α → α)
    (l : List (κ × α)) :
    assocFind k (assocUpdate k f l) = (assocFind k l).map f := by
  induction l with
  | nil => rfl
  | cons p rest ih =>
      obtain ⟨k', v⟩ := p
      by_cases h : k' = k <;> simp [assocFind, assocUpdate, h, ih]

theorem assocFind_nil {κ α : Type} [DecidableEq κ] (k : κ) :
    assocFind (α := α) k [] = none := rfl

/-- Evaluation rule for ceilSecs: Math.ceil(diff / 1000) = q exactly when
q - 1 seconds < diff and diff fits in q seconds. -/
theorem ceilSecs_eq (diff q : Int) (h1 : (q - 1) * 1000 < diff) (h2 : diff ≤ q * 1000) :
    ceilSecs diff = q := by
  unfold ceilSecs
  rw [Int.ceil_eq_iff]
  constructor
  · rw [lt_div_iff (by norm_num : (0:ℚ) < 1000)]
    exact_mod_cast h1
  · rw [div_le_iff (by norm_num : (0:ℚ) < 1000)]
    exact_mod_cast h2

/-- A positive millisecond difference always rounds up to at least one second. -/
theorem ceilSecs_pos (diff : Int) (h : 0 < diff) : 0 < ceilSecs diff := by
  unfold ceilSecs
  rw [Int.ceil_pos]
  have hd : (0:ℚ) < (diff : ℚ) := by exact_mod_cast h
  positivity

/-! ## Concrete states used by the witnesses and counterexamples -/

/-- A crime shaped like the seeded starter crimes: rewards 1..10, success
rate one half, ten-second cooldown, 5 XP. -/
def exCrime : Crime := ⟨1, 10, 1/2, 10, 5⟩

/-- A fresh player: all balances and counters zero, not jailed, no cooldowns. -/
def exUser : User := ⟨0, 0, 0, "Rookie", 0, 0, 0, none, none, []⟩

/-- A database with one eligible player (id 1) and one crime (id 1). -/
def dbEligible : DB := ⟨[(1, exUser)], [(1, exCrime)], []⟩

/-- The fresh player, jailed until t = 2000000 ms. -/
def exJailedUser : User := { exUser with jail_until := some 2000000 }

/-- A database whose only player is jailed until t = 2000000 ms. -/
def dbJailed : DB := ⟨[(1, exJailedUser)], [(1, exCrime)], []⟩

/-- The fresh player with a recorded last attempt of crime 1 at t = 0. -/
def exCooldownUser : User := { exUser with last_crimes := [(1, 0)] }

/-- A database whose only player attempted crime 1 at t = 0. -/
def dbCooldown : DB := ⟨[(1, exCooldownUser)], [(1, exCrime)], []⟩

/-- C1, counterexample.  In the XP and rank revision of POST /commit-crime
(server.js lines 1149-1216) the jail gate does not exist: the player of
dbJailed is jailed until t = 2000000 and calls at now = 1000000, yet the
attempt is resolved (not Jailed) and the total-attempts counter mutates. -/
theorem c1_counterexample :
    (commitCrimeXpRank dbJailed 1 1 1000000 (6/10) 0).1
        = Outcome.resolved false 0 none ∧
    (assocFind 1 (commitCrimeXpRank dbJailed 1 1 1000000 (6/10) 0).2.users).map
        User.total_crimes = some 1 := by
  norm_num [commitCrimeXpRank, dbJailed, exJailedUser, exUser, exCrime, assocFind,
    assocUpdate, assocUpsert, xpRankFailUpdate, updateRankStep, getRank, getRankAux,
    RANKS, ceilSecs, rollReward]

/-- C1, amended.  In the four revisions that implement the jail gate (basic,
advanced, and both part_001 revisions of POST /commit-crime), a player whose
jail_until is strictly after now receives the Jailed outcome on any crime id
and the database is unchanged — no counter, cash, XP or cooldown-map entry
moves.  (The XP and rank revision omits the gate; see the counterexample.) -/
theorem c1_jail_gate_blocks (db : DB) (userId crimeId : Nat) (now j : Int)
    (roll rewardRoll : ℚ) (u : User) (c : Crime)
    (hu : assocFind userId db.users = some u)
    (hc : assocFind crimeId db.crimes = some c)
    (hju : u.jail_until = some j)
    (hj : now < j) :
    commitCrimeBasic db userId crimeId now roll rewardRoll = (Outcome.jailed j, db) ∧
    commitCrimeAdvanced db userId crimeId now roll rewardRoll = (Outcome.jailed j, db, []) ∧
    commitCrimePartA db userId crimeId now roll rewardRoll = (Outcome.jailed j, db) ∧
    commitCrimePartB db userId crimeId now roll rewardRoll = (Outcome.jailed j, db, []) := by
  refine ⟨?_, ?_, ?_, ?_⟩ <;>
    simp [commitCrimeBasic, commitCrimeAdvanced, commitCrimePartA, commitCrimePartB,
      basicGate, jailGate, hu, hc, hju, hj]

/-- C1 witness: the jailed player of dbJailed calling at now = 0 is turned
away identically by all four gate-carrying revisions. -/
theorem c1_jail_gate_blocks_witness :
    commitCrimeBasic dbJailed 1 1 0 (1/4) 0 = (Outcome.jailed 2000000, dbJailed) ∧
    commitCrimeAdvanced dbJailed 1 1 0 (1/4) 0 = (Outcome.jailed 2000000, dbJailed, []) ∧
    commitCrimePartA dbJailed 1 1 0 (1/4) 0 = (Outcome.jailed 2000000, dbJailed) ∧
    commitCrimePartB dbJailed 1 1 0 (1/4) 0 = (Outcome.jailed 2000000, dbJailed, []) :=
  c1_jail_gate_blocks dbJailed 1 1 0 2000000 (1/4) 0 exJailedUser exCrime
    rfl rfl rfl (by decide)

/-! ## C10 -/

/-- C10.  In both part_001 revisions of POST /commit-crime the jail gate is
evaluated before the crime id is resolved: a jailed player calling with a
crime id that does not exist still receives the Jailed outcome (with no
state change), not CrimeNotFound. -/
theorem c10_jail_before_crime_lookup (db : DB) (userId crimeId : Nat) (now j : Int)
    (roll rewardRoll : ℚ) (u : User)
    (hu : assocFind userId db.users = some u)
    (hc : assocFind crimeId db.crimes = none)
    (hju : u.jail_until = some j)
    (hj : now < j) :
    commitCrimePartA db userId crimeId now roll rewardRoll = (Outcome.jailed j, db) ∧
    commitCrimePartB db userId crimeId now roll rewardRoll = (Outcome.jailed j, db, []) := by
  constructor <;>
    simp [commitCrimePartA, commitCrimePartB, jailGate, hu, hju, hj]

/-- C10 witness: crime id 99 does not exist in dbJailed, yet the jailed
player gets the Jailed outcome from both part_001 revisions. -/
theorem c10_jail_before_crime_lookup_witness :
    assocFind 99 dbJailed.crimes = none ∧
    commitCrimePartA dbJailed 1 99 0 (1/4) 0 = (Outcome.jailed 2000000, dbJailed) ∧
    commitCrimePartB dbJailed 1 99 0 (1/4) 0 = (Outcome.jailed 2000000, dbJailed, []) :=
  ⟨rfl,
   c10_jail_before_crime_lookup dbJailed 1 99 0 2000000 (1/4) 0 exJailedUser
     rfl rfl rfl (by decide)⟩

/-! ## C3 -/

/-- C3.  In the two cited revisions with a per-crime cooldown map (part_001
first revision and the XP and rank revision), a recorded last attempt with
lastAttempt + cooldown * 1000 > now makes the call return OnCooldown with
remaining seconds Math.ceil of the millisecond difference over 1000, and
the database unchanged; the remaining time is positive; and with a zero
cooldown_seconds the gate condition cannot hold once the recorded last
attempt is not in the future. -/
theorem c3_cooldown_gate (db : DB) (userId crimeId : Nat) (now la : Int)
    (roll rewardRoll : ℚ) (u : User) (c : Crime)
    (hu : assocFind userId db.users = some u)
    (hc : assocFind crimeId db.crimes = some c) :
    (jailGate u.jail_until now = none →
      assocFind crimeId u.last_crimes = some la →
      now < la + c.cooldown_seconds * 1000 →
      commitCrimePartA db userId crimeId now roll rewardRoll
        = (Outcome.onCooldown (ceilSecs (la + c.cooldown_seconds * 1000 - now)), db)) ∧
    (assocFind crimeId u.last_crimes = some la →
      now < la + c.cooldown_seconds * 1000 →
      commitCrimeXpRank db userId crimeId now roll rewardRoll
        = (Outcome.onCooldown (ceilSecs (la + c.cooldown_seconds * 1000 - now)), db)) ∧
    (now < la + c.cooldown_seconds * 1000 →
      0 < ceilSecs (la + c.cooldown_seconds * 1000 - now)) ∧
    (c.cooldown_seconds = 0 → la ≤ now → ¬ now < la + c.cooldown_seconds * 1000) := by
  refine ⟨?_, ?_, ?_, ?_⟩
  · intro hjail hla hcool
    simp [commitCrimePartA, hu, hc, hjail, hla, hcool]
  · intro hla hcool
    simp [commitCrimeXpRank, hu, hc, hla, hcool]
  · intro hcool
    exact ceilSecs_pos _ (by omega)
  · intro hz hla
    omega

/-- The outcome component of advResolve depends only on the tiered roll. -/
theorem advResolve_fst (db : DB) (userId crimeId : Nat) (c : Crime) (now : Int)
    (roll rewardRoll : ℚ) (re : Bool) :
    (advResolve db userId crimeId c now roll rewardRoll re).1 =
      if roll < c.success_rate * (1/10) then
        Outcome.resolved true (rollReward c.min_reward c.max_reward rewardRoll * 2) none
      else if roll < c.success_rate then
        Outcome.resolved true (rollReward c.min_reward c.max_reward rewardRoll) none
      else if roll < 9/10 then Outcome.resolved false 0 none
      else Outcome.resolved false 0 (some (now + c.cooldown_seconds * 1000)) := by
  simp only [advResolve]
  split_ifs <;> rfl

/-! ## C6 -/

/-- C6.  In the basic and advanced revisions, whenever the gates pass, the
attempt succeeds exactly when the uniform draw is strictly below the
crime's success_rate; hence success_rate 0 never yields a success and
success_rate 1 always does (the draw lives in [0,1)). -/
theorem c6_strict_roll (db : DB) (userId crimeId : Nat) (now : Int)
    (roll rewardRoll : ℚ) (u : User) (c : Crime)
    (hu : assocFind userId db.users = some u)
    (hc : assocFind crimeId db.crimes = some c)
    (hjail : jailGate u.jail_until now = none)
    (hbcd : basicCooldown u.last_crime c now = none)
    (hacd : ∀ av, assocFind (userId, crimeId) db.cooldowns = some av → ¬ now < av)
    (h0 : 0 ≤ roll) :
    ((commitCrimeBasic db userId crimeId now roll rewardRoll).1.isSuccess
        = decide (roll < c.success_rate)) ∧
    ((commitCrimeAdvanced db userId crimeId now roll rewardRoll).1.isSuccess
        = decide (roll < c.success_rate)) ∧
    (c.success_rate = 0 →
      (commitCrimeBasic db userId crimeId now roll rewardRoll).1.isSuccess = false ∧
      (commitCrimeAdvanced db userId crimeId now roll rewardRoll).1.isSuccess = false) ∧
    (c.success_rate = 1 → roll < 1 →
      (commitCrimeBasic db userId crimeId now roll rewardRoll).1.isSuccess = true ∧
      (commitCrimeAdvanced db userId crimeId now roll rewardRoll).1.isSuccess = true) := by
  have hbasic : (commitCrimeBasic db userId crimeId now roll rewardRoll).1.isSuccess
      = decide (roll < c.success_rate) := by
    by_cases hr : roll < c.success_rate <;>
      simp [commitCrimeBasic, hu, hc, basicGate, hjail, hbcd, hr, Outcome.isSuccess]
  have hres : ∀ re : Bool,
      (advResolve db userId crimeId c now roll rewardRoll re).1.isSuccess
        = decide (roll < c.success_rate) := by
    intro re
    rw [advResolve_fst]
    split_ifs with h1 h2 h3
    · have hp : 0 < c.success_rate := by linarith
      have hlt : roll < c.success_rate := by linarith
      simp [Outcome.isSuccess, hlt]
    · simp [Outcome.isSuccess, h2]
    · simp [Outcome.isSuccess, h2]
    · simp [Outcome.isSuccess, h2]
  have hadv : (commitCrimeAdvanced db userId crimeId now roll rewardRoll).1.isSuccess
      = decide (roll < c.success_rate) := by
    rcases hfind : assocFind (userId, crimeId) db.cooldowns with _ | av
    · simp [commitCrimeAdvanced, hu, hc, hjail, hfind, hres]
    · have hnav := hacd av hfind
      simp [commitCrimeAdvanced, hu, hc, hjail, hfind, hnav, hres]
  refine ⟨hbasic, hadv, ?_, ?_⟩
  · intro hrate
    have hnot : ¬ roll < c.success_rate := by rw [hrate]; exact not_lt.mpr h0
    rw [hbasic, hadv]
    simp [hnot]
  · intro hrate hlt1
    have hlt : roll < c.success_rate := by rw [hrate]; exact hlt1
    rw [hbasic, hadv]
    simp [hlt]

/-- C6 witness: for the eligible player of dbEligible, a draw of one
quarter against success rate one half succeeds in both revisions. -/
theorem c6_strict_roll_witness :
    (commitCrimeBasic dbEligible 1 1 0 (1/4) 0).1.isSuccess = true ∧
    (commitCrimeAdvanced dbEligible 1 1 0 (1/4) 0).1.isSuccess = true := by
  have h := c6_strict_roll dbEligible 1 1 0 (1/4) 0 exUser exCrime rfl rfl rfl rfl
      (by intro av hav; exact Option.noConfusion hav) (by norm_num)
  refine ⟨?_, ?_⟩
  · rw [h.1]; norm_num [exCrime]
  · rw [h.2.1]; norm_num [exCrime]

/-! ## C8 -/

/-- The users component of advResolve's final state, by branch. -/
theorem advResolve_users (db : DB) (userId crimeId : Nat) (c : Crime) (now : Int)
    (roll rewardRoll : ℚ) (re : Bool) :
    (advResolve db userId crimeId c now roll rewardRoll re).2.1.users =
      if roll < c.success_rate * (1/10) then
        assocUpdate userId
          (advSuccessUpdate (rollReward c.min_reward c.max_reward rewardRoll * 2)) db.users
      else if roll < c.success_rate then
        assocUpdate userId
          (advSuccessUpdate (rollReward c.min_reward c.max_reward rewardRoll)) db.users
      else if roll < 9/10 then assocUpdate userId advFailUpdate db.users
      else assocUpdate userId advFailUpdate
             (assocUpdate userId (setJail (now + c.cooldown_seconds * 1000)) db.users) := by
  simp only [advResolve]
  split_ifs <;> rfl

/-- The counter invariant of the users table: total attempts equal
successful plus unsuccessful attempts. -/
def countersOk (u : User) : Bool :=
  decide (u.total_crimes = u.successful_crimes + u.unsuccessful_crimes)

/-- C8.  In the basic and advanced revisions, every resolved attempt
increments total_crimes by exactly one and exactly one of
successful_crimes or unsuccessful_crimes by exactly one; and the invariant
total_crimes = successful_crimes + unsuccessful_crimes is preserved by
every call, gate-rejected calls included. -/
theorem c8_counters (db : DB) (userId crimeId : Nat) (now : Int)
    (roll rewardRoll : ℚ) (u : User) (c : Crime)
    (hu : assocFind userId db.users = some u)
    (hc : assocFind crimeId db.crimes = some c) :
    (basicGate u c now = none →
      (assocFind userId (commitCrimeBasic db userId crimeId now roll rewardRoll).2.users).map
          User.total_crimes = some (u.total_crimes + 1) ∧
      (((assocFind userId (commitCrimeBasic db userId crimeId now roll rewardRoll).2.users).map
            User.successful_crimes = some (u.successful_crimes + 1) ∧
        (assocFind userId (commitCrimeBasic db userId crimeId now roll rewardRoll).2.users).map
            User.unsuccessful_crimes = some u.unsuccessful_crimes) ∨
       ((assocFind userId (commitCrimeBasic db userId crimeId now roll rewardRoll).2.users).map
            User.successful_crimes = some u.successful_crimes ∧
        (assocFind userId (commitCrimeBasic db userId crimeId now roll rewardRoll).2.users).map
            User.unsuccessful_crimes = some (u.unsuccessful_crimes + 1)))) ∧
    (jailGate u.jail_until now = none →
      (∀ av, assocFind (userId, crimeId) db.cooldowns = some av → ¬ now < av) →
      (assocFind userId (commitCrimeAdvanced db userId crimeId now roll rewardRoll).2.1.users).map
          User.total_crimes = some (u.total_crimes + 1) ∧
      (((assocFind userId (commitCrimeAdvanced db userId crimeId now roll rewardRoll).2.1.users).map
            User.successful_crimes = some (u.successful_crimes + 1) ∧
        (assocFind userId (commitCrimeAdvanced db userId crimeId now roll rewardRoll).2.1.users).map
            User.unsuccessful_crimes = some u.unsuccessful_crimes) ∨
       ((assocFind userId (commitCrimeAdvanced db userId crimeId now roll rewardRoll).2.1.users).map
            User.successful_crimes = some u.successful_crimes ∧
        (assocFind userId (commitCrimeAdvanced db userId crimeId now roll rewardRoll).2.1.users).map
            User.unsuccessful_crimes = some (u.unsuccessful_crimes + 1)))) ∧
    (countersOk u = true →
      (assocFind userId (commitCrimeBasic db userId crimeId now roll rewardRoll).2.users).all
        countersOk = true) ∧
    (countersOk u = true →
      (assocFind userId (commitCrimeAdvanced db userId crimeId now roll rewardRoll).2.1.users).all
        countersOk = true) := by
  refine ⟨?_, ?_, ?_, ?_⟩
  · intro hg
    by_cases hr : roll < c.success_rate <;>
      simp [commitCrimeBasic, hu, hc, hg, hr, assocFind_assocUpdate,
        basicSuccessUpdate, basicFailUpdate]
  · intro hjail hacd
    rcases hfind : assocFind (userId, crimeId) db.cooldowns with _ | av
    · simp only [commitCrimeAdvanced, hu, hc, hjail, hfind]
      rw [advResolve_users]
      split_ifs <;>
        simp [assocFind_assocUpdate, hu, advSuccessUpdate, advFailUpdate, setJail]
    · have hnav := hacd av hfind
      simp only [commitCrimeAdvanced, hu, hc, hjail, hfind, if_neg hnav]
      rw [advResolve_users]
      split_ifs <;>
        simp [assocFind_assocUpdate, hu, advSuccessUpdate, advFailUpdate, setJail]
  · intro hok
    rcases hg : basicGate u c now with _ | o
    · by_cases hr : roll < c.success_rate
      · simp [commitCrimeBasic, hu, hc, hg, hr, assocFind_assocUpdate,
          basicSuccessUpdate, countersOk, Option.all] at hok ⊢
        omega
      · simp [commitCrimeBasic, hu, hc, hg, hr, assocFind_assocUpdate,
          basicFailUpdate, countersOk, Option.all] at hok ⊢
        omega
    · simp [commitCrimeBasic, hu, hc, hg, Option.all, hok]
  · intro hok
    rcases hj : jailGate u.jail_until now with _ | j
    · rcases hfind : assocFind (userId, crimeId) db.cooldowns with _ | av
      · simp only [commitCrimeAdvanced, hu, hc, hj, hfind]
        rw [advResolve_users]
        split_ifs <;>
          (simp [assocFind_assocUpdate, hu, advSuccessUpdate, advFailUpdate, setJail,
            countersOk, Option.all] at hok ⊢; omega)
      · by_cases hav : now < av
        · simp [commitCrimeAdvanced, hu, hc, hj, hfind, hav, Option.all, hok]
        · simp only [commitCrimeAdvanced, hu, hc, hj, hfind, if_neg hav]
          rw [advResolve_users]
          split_ifs <;>
            (simp [assocFind_assocUpdate, hu, advSuccessUpdate, advFailUpdate, setJail,
              countersOk, Option.all] at hok ⊢; omega)
    · simp [commitCrimeAdvanced, hu, hc, hj, Option.all, hok]

/-- C8 witness: the eligible fresh player of dbEligible satisfies the
counter invariant before the call, a resolved basic-revision call bumps
total_crimes to one, and the invariant holds afterwards in both revisions. -/
theorem c8_counters_witness :
    ((assocFind 1 (commitCrimeBasic dbEligible 1 1 0 (1/4) 0).2.users).map
        User.total_crimes = some (0 + 1)) ∧
    ((assocFind 1 (commitCrimeBasic dbEligible 1 1 0 (1/4) 0).2.users).all
        countersOk = true) ∧
    ((assocFind 1 (commitCrimeAdvanced dbEligible 1 1 0 (1/4) 0).2.1.users).all
        countersOk = true) := by
  have h := c8_counters dbEligible 1 1 0 (1/4) 0 exUser exCrime rfl rfl
  exact ⟨(h.1 rfl).1, h.2.2.1 rfl, h.2.2.2 rfl⟩

/-! ## C4 -/

/-- C4, counterexample.  The advanced revision's critical-success path
(roll strictly below success_rate / 10) doubles the drawn reward: with
rewards drawn from [1, 10] the player is credited 20, outside the
inclusive range [min_reward, max_reward] the claim asserts. -/
theorem c4_counterexample :
    (commitCrimeAdvanced dbEligible 1 1 0 (4/100) (99/100)).1
        = Outcome.resolved true 20 none ∧
    (assocFind 1 (commitCrimeAdvanced dbEligible 1 1 0 (4/100) (99/100)).2.1.users).map
        User.money = some 20 ∧
    ¬ (20 : Int) ≤ exCrime.max_reward := by
  norm_num [commitCrimeAdvanced, advResolve, dbEligible, exUser, exCrime, assocFind,
    assocUpdate, jailGate, advSuccessUpdate, rollReward]

/-- C4, amended.  The reward roll used by every revision is a uniform
integer in the inclusive range: for draws in [0,1) it stays within
[min_reward, max_reward], both endpoints are attainable, and it is
deterministic when the bounds coincide; the basic revision credits exactly
this roll, while the advanced revision's critical-success path credits
exactly twice this roll (so that path can leave the range). -/
theorem c4_reward_bounds (db : DB) (userId crimeId : Nat) (now : Int)
    (roll rewardRoll r : ℚ) (minR maxR : Int) (u : User) (c : Crime)
    (hu : assocFind userId db.users = some u)
    (hc : assocFind crimeId db.crimes = some c) :
    (minR ≤ maxR → 0 ≤ r → r < 1 →
      minR ≤ rollReward minR maxR r ∧ rollReward minR maxR r ≤ maxR) ∧
    (rollReward minR maxR 0 = minR) ∧
    (minR ≤ maxR → ∃ rr : ℚ, 0 ≤ rr ∧ rr < 1 ∧ rollReward minR maxR rr = maxR) ∧
    (0 ≤ r → r < 1 → rollReward minR minR r = minR) ∧
    (basicGate u c now = none → roll < c.success_rate →
      (commitCrimeBasic db userId crimeId now roll rewardRoll).1
        = Outcome.resolved true (rollReward c.min_reward c.max_reward rewardRoll) none) ∧
    (jailGate u.jail_until now = none →
      (∀ av, assocFind (userId, crimeId) db.cooldowns = some av → ¬ now < av) →
      roll < c.success_rate * (1/10) →
      (commitCrimeAdvanced db userId crimeId now roll rewardRoll).1
        = Outcome.resolved true (rollReward c.min_reward c.max_reward rewardRoll * 2) none) := by
  refine ⟨?_, ?_, ?_, ?_, ?_, ?_⟩
  · intro hmm h0 h1
    have hcast : (minR:ℚ) ≤ (maxR:ℚ) := by exact_mod_cast hmm
    constructor
    · have hk : (0:ℚ) ≤ (maxR:ℚ) - minR + 1 := by linarith
      have hfl : 0 ≤ ⌊r * ((maxR:ℚ) - minR + 1)⌋ :=
        Int.floor_nonneg.mpr (mul_nonneg h0 hk)
      unfold rollReward
      omega
    · have hkpos : (0:ℚ) < (maxR:ℚ) - minR + 1 := by linarith
      have hmul : r * ((maxR:ℚ) - minR + 1) < ((maxR - minR + 1 : Int) : ℚ) := by
        push_cast
        have := mul_lt_mul_of_pos_right h1 hkpos
        linarith
      have hfl := Int.floor_lt.mpr hmul
      unfold rollReward
      omega
  · unfold rollReward
    simp
  · intro hmm
    have hk : (0:ℚ) < ((maxR - minR + 1 : Int) : ℚ) := by
      exact_mod_cast (by omega : (0:Int) < maxR - minR + 1)
    have hd : (0:ℚ) ≤ ((maxR - minR : Int) : ℚ) := by
      exact_mod_cast (by omega : (0:Int) ≤ maxR - minR)
    refine ⟨((maxR - minR : Int) : ℚ) / ((maxR - minR + 1 : Int) : ℚ),
      div_nonneg hd (le_of_lt hk), ?_, ?_⟩
    · rw [div_lt_one hk]
      exact_mod_cast (by omega : (maxR - minR : Int) < maxR - minR + 1)
    · unfold rollReward
      have hrw : ((maxR - minR : Int) : ℚ) / ((maxR - minR + 1 : Int) : ℚ)
          * ((maxR:ℚ) - (minR:ℚ) + 1) = ((maxR - minR : Int) : ℚ) := by
        have hcast : ((maxR - minR + 1 : Int) : ℚ) = (maxR:ℚ) - minR + 1 := by
          push_cast; ring
        rw [hcast] at hk ⊢
        field_simp
      rw [hrw, Int.floor_intCast]
      omega
  · intro h0 h1
    unfold rollReward
    have hone : (minR:ℚ) - (minR:ℚ) + 1 = 1 := by ring
    rw [hone, mul_one]
    have hz : ⌊r⌋ = 0 := Int.floor_eq_zero_iff.mpr ⟨h0, h1⟩
    omega
  · intro hg hr
    simp [commitCrimeBasic, hu, hc, hg, hr]
  · intro hjail hacd h1
    rcases hfind : assocFind (userId, crimeId) db.cooldowns with _ | av
    · simp only [commitCrimeAdvanced, hu, hc, hjail, hfind]
      rw [advResolve_fst, if_pos h1]
    · have hnav := hacd av hfind
      simp only [commitCrimeAdvanced, hu, hc, hjail, hfind, if_neg hnav]
      rw [advResolve_fst, if_pos h1]

/-- C4 witness: reward bounds and endpoints at min 1, max 10, and the
basic revision crediting exactly the roll for the eligible player. -/
theorem c4_reward_bounds_witness :
    (1 ≤ rollReward 1 10 (1/2) ∧ rollReward 1 10 (1/2) ≤ 10) ∧
    rollReward 1 10 0 = 1 ∧
    (∃ rr : ℚ, 0 ≤ rr ∧ rr < 1 ∧ rollReward 1 10 rr = 10) ∧
    rollReward 1 1 (1/2) = 1 ∧
    (commitCrimeBasic dbEligible 1 1 0 (1/4) (1/2)).1
      = Outcome.resolved true (rollReward exCrime.min_reward exCrime.max_reward (1/2)) none := by
  have h := c4_reward_bounds dbEligible 1 1 0 (1/4) (1/2) (1/2) 1 10 exUser exCrime rfl rfl
  exact ⟨h.1 (by decide) (by norm_num) (by norm_num), h.2.1,
    h.2.2.1 (by decide), h.2.2.2.1 (by norm_num) (by norm_num),
    h.2.2.2.2.1 rfl (by norm_num [exCrime])⟩

/-! ## C5 -/

/-- C5, counterexample.  In the advanced revision a failed attempt with
roll in [success_rate, 0.9) does not jail: the eligible player fails at
roll 0.6 against success rate one half and jail_until stays null instead
of becoming now + cooldown. -/
theorem c5_counterexample :
    (commitCrimeAdvanced dbEligible 1 1 0 (6/10) 0).1 = Outcome.resolved false 0 none ∧
    (assocFind 1 (commitCrimeAdvanced dbEligible 1 1 0 (6/10) 0).2.1.users).map
        User.jail_until = some none ∧
    (none : Option Int) ≠ some (0 + exCrime.cooldown_seconds * 1000) := by
  refine ⟨?_, ?_, by decide⟩ <;>
    norm_num [commitCrimeAdvanced, advResolve, dbEligible, exUser, exCrime, assocFind,
      assocUpdate, jailGate, advFailUpdate, rollReward]

/-- C5, amended.  In the basic revision every failed attempt sets
jail_until to exactly now + cooldown_seconds * 1000; in the advanced
revision only the caught branch (roll at least 0.9) jails, to exactly the
same expiry, while failures with roll below 0.9 leave jail_until
untouched. -/
theorem c5_jail_on_failure (db : DB) (userId crimeId : Nat) (now : Int)
    (roll rewardRoll : ℚ) (u : User) (c : Crime)
    (hu : assocFind userId db.users = some u)
    (hc : assocFind crimeId db.crimes = some c) :
    (basicGate u c now = none → ¬ roll < c.success_rate →
      (commitCrimeBasic db userId crimeId now roll rewardRoll).1
        = Outcome.resolved false 0 (some (now + c.cooldown_seconds * 1000)) ∧
      (assocFind userId (commitCrimeBasic db userId crimeId now roll rewardRoll).2.users).map
          User.jail_until = some (some (now + c.cooldown_seconds * 1000))) ∧
    (jailGate u.jail_until now = none →
      (∀ av, assocFind (userId, crimeId) db.cooldowns = some av → ¬ now < av) →
      ¬ roll < c.success_rate → 9/10 ≤ roll →
      (commitCrimeAdvanced db userId crimeId now roll rewardRoll).1
        = Outcome.resolved false 0 (some (now + c.cooldown_seconds * 1000)) ∧
      (assocFind userId (commitCrimeAdvanced db userId crimeId now roll rewardRoll).2.1.users).map
          User.jail_until = some (some (now + c.cooldown_seconds * 1000))) ∧
    (jailGate u.jail_until now = none →
      (∀ av, assocFind (userId, crimeId) db.cooldowns = some av → ¬ now < av) →
      ¬ roll < c.success_rate → roll < 9/10 → 0 ≤ roll →
      (commitCrimeAdvanced db userId crimeId now roll rewardRoll).1
        = Outcome.resolved false 0 none ∧
      (assocFind userId (commitCrimeAdvanced db userId crimeId now roll rewardRoll).2.1.users).map
          User.jail_until = some u.jail_until) := by
  refine ⟨?_, ?_, ?_⟩
  · intro hg hr
    constructor <;>
      simp [commitCrimeBasic, hu, hc, hg, hr, assocFind_assocUpdate, basicFailUpdate]
  · intro hjail hacd hf h9
    have hrate : c.success_rate ≤ roll := not_lt.mp hf
    have hn1 : ¬ roll < c.success_rate * (1/10) := by
      intro hcon
      linarith
    have hn9 : ¬ roll < 9/10 := not_lt.mpr h9
    have houtcome : ∀ re : Bool,
        (advResolve db userId crimeId c now roll rewardRoll re).1
          = Outcome.resolved false 0 (some (now + c.cooldown_seconds * 1000)) := by
      intro re
      rw [advResolve_fst, if_neg hn1, if_neg hf, if_neg hn9]
    have husers : ∀ re : Bool,
        (assocFind userId (advResolve db userId crimeId c now roll rewardRoll re).2.1.users).map
            User.jail_until = some (some (now + c.cooldown_seconds * 1000)) := by
      intro re
      rw [advResolve_users, if_neg hn1, if_neg hf, if_neg hn9]
      simp [assocFind_assocUpdate, hu, advFailUpdate, setJail]
    rcases hfind : assocFind (userId, crimeId) db.cooldowns with _ | av
    · simp only [commitCrimeAdvanced, hu, hc, hjail, hfind]
      exact ⟨houtcome false, husers false⟩
    · have hnav := hacd av hfind
      simp only [commitCrimeAdvanced, hu, hc, hjail, hfind, if_neg hnav]
      exact ⟨houtcome true, husers true⟩
  · intro hjail hacd hf h3 h0
    have hrate : c.success_rate ≤ roll := not_lt.mp hf
    have hn1 : ¬ roll < c.success_rate * (1/10) := by
      intro hcon
      linarith
    have houtcome : ∀ re : Bool,
        (advResolve db userId crimeId c now roll rewardRoll re).1
          = Outcome.resolved false 0 none := by
      intro re
      rw [advResolve_fst, if_neg hn1, if_neg hf, if_pos h3]
    have husers : ∀ re : Bool,
        (assocFind userId (advResolve db userId crimeId c now roll rewardRoll re).2.1.users).map
            User.jail_until = some u.jail_until := by
      intro re
      rw [advResolve_users, if_neg hn1, if_neg hf, if_pos h3]
      simp [assocFind_assocUpdate, hu, advFailUpdate]
    rcases hfind : assocFind (userId, crimeId) db.cooldowns with _ | av
    · simp only [commitCrimeAdvanced, hu, hc, hjail, hfind]
      exact ⟨houtcome false, husers false⟩
    · have hnav := hacd av hfind
      simp only [commitCrimeAdvanced, hu, hc, hjail, hfind, if_neg hnav]
      exact ⟨houtcome true, husers true⟩

/-- C5 witness: the eligible player failing in the basic revision at roll
0.6 is jailed until exactly 10000 ms, and failing caught in the advanced
revision at roll 0.95 likewise. -/
theorem c5_jail_on_failure_witness :
    ((commitCrimeBasic dbEligible 1 1 0 (6/10) 0).1
        = Outcome.resolved false 0 (some (0 + exCrime.cooldown_seconds * 1000)) ∧
     (assocFind 1 (commitCrimeBasic dbEligible 1 1 0 (6/10) 0).2.users).map
        User.jail_until = some (some (0 + exCrime.cooldown_seconds * 1000))) ∧
    ((commitCrimeAdvanced dbEligible 1 1 0 (95/100) 0).1
        = Outcome.resolved false 0 (some (0 + exCrime.cooldown_seconds * 1000)) ∧
     (assocFind 1 (commitCrimeAdvanced dbEligible 1 1 0 (95/100) 0).2.1.users).map
        User.jail_until = some (some (0 + exCrime.cooldown_seconds * 1000))) := by
  constructor
  · exact (c5_jail_on_failure dbEligible 1 1 0 (6/10) 0 exUser exCrime rfl rfl).1
      rfl (by norm_num [exCrime])
  · exact (c5_jail_on_failure dbEligible 1 1 0 (95/100) 0 exUser exCrime rfl rfl).2.1
      rfl (by intro av hav; exact Option.noConfusion hav)
      (by norm_num [exCrime]) (by norm_num)

/-! ## C2 -/

/-- C9, counterexample.  Two calls for the same eligible player under the
stale-read schedule (request A reads, request B runs completely, request A
finishes): both pass the gates and both commit rewards — money grows by
both rewards and successful_crimes by two — instead of exactly one
committed outcome with the other call observing the cooldown. -/
theorem c9_counterexample :
    (basicStaleRace dbEligible 1 1 0 (1/4) 0 (1/4) (99/100)).1
      = Outcome.resolved true 1 none ∧
    (basicStaleRace dbEligible 1 1 0 (1/4) 0 (1/4) (99/100)).2.1
      = Outcome.resolved true 10 none ∧
    (assocFind 1 (basicStaleRace dbEligible 1 1 0 (1/4) 0 (1/4) (99/100)).2.2.users).map
        User.money = some 11 ∧
    (assocFind 1 (basicStaleRace dbEligible 1 1 0 (1/4) 0 (1/4) (99/100)).2.2.users).map
        User.successful_crimes = some 2 := by
  norm_num [basicStaleRace, commitCrimeBasic, dbEligible, exUser, exCrime, assocFind,
    assocUpdate, jailGate, basicGate, basicCooldown, basicSuccessUpdate, rollReward]

/-- C9, amended.  The basic revision runs its gate SELECTs and its UPDATE
as separate unserialized queries with no transaction or per-player lock,
so whenever both draws succeed, the stale-read interleaving of two calls
for the same eligible player commits both rewards: both calls return
Success and cash grows by the sum of the two rewards. -/
theorem c9_stale_race (db : DB) (userId crimeId : Nat) (now : Int)
    (rollA rewardRollA rollB rewardRollB : ℚ) (u : User) (c : Crime)
    (hu : assocFind userId db.users = some u)
    (hc : assocFind crimeId db.crimes = some c)
    (hg : basicGate u c now = none)
    (hA : rollA < c.success_rate) (hB : rollB < c.success_rate) :
    (basicStaleRace db userId crimeId now rollA rewardRollA rollB rewardRollB).1
      = Outcome.resolved true (rollReward c.min_reward c.max_reward rewardRollA) none ∧
    (basicStaleRace db userId crimeId now rollA rewardRollA rollB rewardRollB).2.1
      = Outcome.resolved true (rollReward c.min_reward c.max_reward rewardRollB) none ∧
    (assocFind userId
        (basicStaleRace db userId crimeId now rollA rewardRollA rollB rewardRollB).2.2.users).map
      User.money = some (u.money + rollReward c.min_reward c.max_reward rewardRollB
                                 + rollReward c.min_reward c.max_reward rewardRollA) ∧
    (assocFind userId
        (basicStaleRace db userId crimeId now rollA rewardRollA rollB rewardRollB).2.2.users).map
      User.successful_crimes = some (u.successful_crimes + 1 + 1) := by
  refine ⟨?_, ?_, ?_, ?_⟩ <;>
    simp [basicStaleRace, commitCrimeBasic, hu, hc, hg, hA, hB,
      assocFind_assocUpdate, basicSuccessUpdate]

/-- C9 witness: the race applied to the eligible player of dbEligible with
two succeeding draws. -/
theorem c9_stale_race_witness :
    (basicStaleRace dbEligible 1 1 0 (1/4) 0 (1/4) (99/100)).1
      = Outcome.resolved true (rollReward exCrime.min_reward exCrime.max_reward 0) none ∧
    (basicStaleRace dbEligible 1 1 0 (1/4) 0 (1/4) (99/100)).2.1
      = Outcome.resolved true (rollReward exCrime.min_reward exCrime.max_reward (99/100)) none ∧
    (assocFind 1 (basicStaleRace dbEligible 1 1 0 (1/4) 0 (1/4) (99/100)).2.2.users).map
      User.money = some (exUser.money
        + rollReward exCrime.min_reward exCrime.max_reward (99/100)
        + rollReward exCrime.min_reward exCrime.max_reward 0) ∧
    (assocFind 1 (basicStaleRace dbEligible 1 1 0 (1/4) 0 (1/4) (99/100)).2.2.users).map
      User.successful_crimes = some (exUser.successful_crimes + 1 + 1) :=
  c9_stale_race dbEligible 1 1 0 (1/4) 0 (1/4) (99/100) exUser exCrime rfl rfl rfl
    (by norm_num [exCrime]) (by norm_num [exCrime])

/-! ## C7 -/

/-- When every remaining entry's threshold is above the xp, the loop keeps
its accumulator. -/
theorem getRankAux_high (xp : Int) : ∀ (l : List RankEntry) (cur : String),
    (∀ r ∈ l, xp < r.xp) → getRankAux xp cur l = cur := by
  intro l
  induction l with
  | nil => intro cur _; rfl
  | cons r rest ih =>
      intro cur h
      have hr : xp < r.xp := h r (by simp)
      simp only [getRankAux]
      rw [if_neg (not_le.mpr hr)]
      exact ih cur (fun r' hr' => h r' (by simp [hr']))

/-- The loop returns the label of the last entry whose threshold the xp
has reached, whatever entries precede it. -/
theorem getRankAux_last (xp : Int) : ∀ (l₁ l₂ : List RankEntry) (e : RankEntry)
    (cur : String), e.xp ≤ xp → (∀ r ∈ l₂, xp < r.xp) →
    getRankAux xp cur (l₁ ++ e :: l₂) = e.name := by
  intro l₁
  induction l₁ with
  | nil =>
      intro l₂ e cur he h2
      simp only [List.nil_append, getRankAux]
      rw [if_pos he]
      exact getRankAux_high xp l₂ e.name h2
  | cons r rest ih =>
      intro l₂ e cur he h2
      simp only [List.cons_append, getRankAux]
      exact ih l₂ e _ he h2

/-- C7.  For every table with strictly ascending thresholds, the getRank
loop returns the label of the highest threshold not exceeding the xp; in
particular an xp exactly equal to an entry's threshold yields that entry's
label, not the next-lower one. -/
theorem c7_rank_threshold (l₁ l₂ : List RankEntry) (e : RankEntry) (cur : String)
    (hsorted : (l₁ ++ e :: l₂).Pairwise (fun a b => a.xp < b.xp)) :
    (∀ xp : Int, e.xp ≤ xp → (∀ r ∈ l₂, xp < r.xp) →
        getRankAux xp cur (l₁ ++ e :: l₂) = e.name) ∧
    getRankAux e.xp cur (l₁ ++ e :: l₂) = e.name := by
  have h2 : ∀ r ∈ l₂, e.xp < r.xp :=
    (List.pairwise_cons.mp (List.pairwise_append.mp hsorted).2.1).1
  exact ⟨fun xp he hx => getRankAux_last xp l₁ l₂ e cur he hx,
    getRankAux_last e.xp l₁ l₂ e cur le_rfl h2⟩

/-- C7 witness: on the RANKS table, xp exactly 300 (the Hustler threshold)
yields the label Hustler. -/
theorem c7_rank_threshold_witness : getRank 300 = "Hustler" := by
  have h := c7_rank_threshold [⟨"Rookie", 0⟩, ⟨"Thug", 100⟩]
      [⟨"Gangster", 700⟩, ⟨"Capo", 1500⟩, ⟨"Underboss", 3000⟩, ⟨"Boss", 6000⟩,
       ⟨"Godfather", 12000⟩] ⟨"Hustler", 300⟩ "Rookie" (by decide)
  exact h.2

/-- C3 witness: the player of dbCooldown attempted crime 1 at t = 0; at
now = 1000 ms both per-crime revisions answer OnCooldown with ceil(9000 /
1000) = 9 remaining seconds and leave the state untouched. -/
theorem c3_cooldown_gate_witness :
    commitCrimePartA dbCooldown 1 1 1000 (1/4) 0 = (Outcome.onCooldown 9, dbCooldown) ∧
    commitCrimeXpRank dbCooldown 1 1 1000 (1/4) 0 = (Outcome.onCooldown 9, dbCooldown) ∧
    0 < ceilSecs (0 + exCrime.cooldown_seconds * 1000 - 1000) := by
  have h := c3_cooldown_gate dbCooldown 1 1 1000 0 (1/4) 0 exCooldownUser exCrime rfl rfl
  have hcool : (1000:Int) < 0 + exCrime.cooldown_seconds * 1000 := by decide
  have hceil : ceilSecs (0 + exCrime.cooldown_seconds * 1000 - 1000) = 9 :=
    ceilSecs_eq _ 9 (by decide) (by decide)
  refine ⟨?_, ?_, h.2.2.1 hcool⟩
  · have hm := h.1 rfl rfl hcool
    rw [hceil] at hm
    exact hm
  · have hm := h.2.1 rfl hcool
    rw [hceil] at hm
    exact hm
